import Mathlib

/-!
# WAR estruturado: a verification development of `war.c`

The game keeps a map of territories (`Territorio* mapa` with its length
`numTerritorios`), resolves one round of dice combat per attack action and
checks the player's mission on request.

Modelling conventions:

* a C `int` is an `Int`.  The only arithmetic the program does on troop
  counts is `--`, which leaves the range of `int` only at `INT_MIN`, where C
  gives the program no defined behaviour;
* a C string (`char[TAM_NOME]`, `const char*`) is a `String`, and
  `strcmp(a, b) == 0` is equality of strings;
* the pointer `mapa` together with the memory behind it is a
  `List Territorio`; `numTerritorios` stays an explicit argument, as in the
  source.  A read outside the list yields the zeroed record that `calloc`
  hands out, a write outside the list is dropped;
* `rand()` draws from an explicit stream of non-negative numbers that is
  threaded through every function which calls it;
* `scanf("%d", &x)` is an `Option Int`: `none` when no number could be read;
* text written with `printf` is not part of the model.
-/

namespace War

/-! ## Constants -/

/-- The constant `MAX_TERRITORIOS`. -/
def MAX_TERRITORIOS : Int := 10

/-- The constant `MAX_MISSOES`. -/
def MAX_MISSOES : Nat := 3

/-- The constant `COR_JOGADOR`. -/
def COR_JOGADOR : String := "AZUL"

/-- The constant `COR_INIMIGO_ALVO`, the enemy of the destruction mission. -/
def COR_INIMIGO_ALVO : String := "PRETO"

/-! ## Data -/

/-- The record `Territorio`: name, colour of the owning army, troops. -/
structure Territorio where
  nome : String
  corDono : String
  tropas : Int
  deriving DecidableEq, Repr

/-- A zeroed record, as `calloc` produces it. -/
instance : Inhabited Territorio := ⟨⟨"", "", 0⟩⟩

/-- The source of `rand()`: the stream of the draws still to come. -/
abbrev Rng := Nat → Nat

/-- One call of `rand()`: the next draw and the rest of the stream. -/
def rand (g : Rng) : Nat × Rng := (g 0, fun n => g (n + 1))

/-! ## Setup -/

/-- The function `alocarMapa`: `calloc` of `numTerritorios` zeroed records
(the allocation is taken to succeed). -/
def alocarMapa (numTerritorios : Int) : List Territorio :=
  List.replicate numTerritorios.toNat default

/-- The function `obterNomeCor`. -/
def obterNomeCor (idCor : Int) : String :=
  if idCor = 0 then "AMARELO"
  else if idCor = 1 then "VERDE"
  else COR_INIMIGO_ALVO

/-- The body of the `for` loop of `inicializarTerritorios` at index `i`. -/
def inicializarPasso (st : List Territorio × Rng) (i : Nat) : List Territorio × Rng :=
  let mapa := st.1
  let g := st.2
  let nome := "Territorio " ++ toString (i + 1)
  if i < 4 then
    let r := rand g
    (mapa.set i ⟨nome, COR_JOGADOR, 3 + ((r.1 % 2 : Nat) : Int)⟩, r.2)
  else if i = 4 then
    let r := rand g
    (mapa.set i ⟨nome, COR_INIMIGO_ALVO, 4 + ((r.1 % 3 : Nat) : Int)⟩, r.2)
  else
    let r1 := rand g
    let cor := obterNomeCor ((r1.1 % 2 : Nat) : Int)
    let r2 := rand r1.2
    (mapa.set i ⟨nome, cor, 2 + ((r2.1 % 2 : Nat) : Int)⟩, r2.2)

/-- The function `inicializarTerritorios` on a map that is not `NULL`:
the loop `for (i = 0; i < numTerritorios; i++)`. -/
def inicializarTerritorios (mapa : List Territorio) (numTerritorios : Int) (g : Rng) :
    List Territorio × Rng :=
  (List.range numTerritorios.toNat).foldl inicializarPasso (mapa, g)

/-! ## Combat -/

/-- The function `rolarDado`: `1 + (rand() % 6)`. -/
def rolarDado (g : Rng) : Int × Rng :=
  let r := rand g
  (1 + ((r.1 % 6 : Nat) : Int), r.2)

/-- The comparison of the two dice in `simularAtaque`: the loser of the
confrontation loses one troop, a tie counting for the defender. -/
def compararDados (resultadoAtacante resultadoDefensor : Int)
    (atacante defensor : Territorio) : Territorio × Territorio :=
  if resultadoAtacante > resultadoDefensor then
    (atacante, { defensor with tropas := defensor.tropas - 1 })
  else
    ({ atacante with tropas := atacante.tropas - 1 }, defensor)

/-- The conquest check that ends `simularAtaque`. -/
def verificarConquista (atacante defensor : Territorio) (corJogador : String) :
    Territorio × Territorio :=
  if defensor.tropas ≤ 0 then
    ({ atacante with tropas := atacante.tropas - 1 },
     { defensor with corDono := corJogador, tropas := 1 })
  else
    (atacante, defensor)

/-- The body of `simularAtaque` once both dice have been rolled: the
comparison of the dice, then the conquest check.  The statements about a
round quantify over the two dice through this function; `simularAtaque`
runs it on the two rolls of `rolarDado`. -/
def simularAtaqueDados (resultadoAtacante resultadoDefensor : Int)
    (atacante defensor : Territorio) (corJogador : String) : Territorio × Territorio :=
  let r := compararDados resultadoAtacante resultadoDefensor atacante defensor
  verificarConquista r.1 r.2 corJogador

/-- The function `simularAtaque`, on two distinct records: it returns the
attacker, the defender and the random source after the round. -/
def simularAtaque (atacante defensor : Territorio) (corJogador : String) (g : Rng) :
    Territorio × Territorio × Rng :=
  let d1 := rolarDado g
  let d2 := rolarDado d1.2
  let r := simularAtaqueDados d1.1 d2.1 atacante defensor corJogador
  (r.1, r.2, d2.2)

/-- The function `faseDeAtaque`.  The two `scanf` results are
`entradaAtacante` and `entradaDefensor`; the second is only looked at when
the attacker has been accepted. -/
def faseDeAtaque (mapa : List Territorio) (numTerritorios : Int) (corJogador : String)
    (entradaAtacante entradaDefensor : Option Int) (g : Rng) : List Territorio × Rng :=
  match entradaAtacante with
  | none => (mapa, g)
  | some idAtacante =>
    if idAtacante < 1 ∨ idAtacante > numTerritorios then (mapa, g)
    else
      let atacante := mapa.getD (idAtacante - 1).toNat default
      if atacante.corDono ≠ corJogador ∨ atacante.tropas < 2 then (mapa, g)
      else
        match entradaDefensor with
        | none => (mapa, g)
        | some idDefensor =>
          if idDefensor < 1 ∨ idDefensor > numTerritorios ∨ idDefensor = idAtacante then
            (mapa, g)
          else
            let defensor := mapa.getD (idDefensor - 1).toNat default
            if defensor.corDono = corJogador then (mapa, g)
            else
              let r := simularAtaque atacante defensor corJogador g
              (((mapa.set (idAtacante - 1).toNat r.1).set (idDefensor - 1).toNat r.2.1), r.2.2)

/-! ## Missions -/

/-- The function `sortearMissao`: `1 + (rand() % MAX_MISSOES)`. -/
def sortearMissao (g : Rng) : Int × Rng :=
  let r := rand g
  (1 + ((r.1 % MAX_MISSOES : Nat) : Int), r.2)

/-- The body of the `for` loop of `verificarVitoria` at index `i`, on the
pair `(territoriosJogador, inimigoAlvoVivo)`. -/
def verificarPasso (mapa : List Territorio) (corJogador : String)
    (acc : Int × Int) (i : Nat) : Int × Int :=
  let t := mapa.getD i default
  let territoriosJogador := if t.corDono = corJogador then acc.1 + 1 else acc.1
  let inimigoAlvoVivo := if t.corDono = COR_INIMIGO_ALVO then 1 else acc.2
  (territoriosJogador, inimigoAlvoVivo)

/-- The function `verificarVitoria`: `1` when the mission is fulfilled and
`0` otherwise. -/
def verificarVitoria (mapa : List Territorio) (numTerritorios : Int) (idMissao : Int)
    (corJogador : String) : Int :=
  let acc := (List.range numTerritorios.toNat).foldl (verificarPasso mapa corJogador) (0, 0)
  if idMissao = 1 then
    if acc.1 ≥ 6 then 1 else 0
  else if idMissao = 2 then
    if acc.2 = 0 then 1 else 0
  else if idMissao = 3 then
    if acc.1 ≥ 8 then 1 else 0
  else 0

/-! ## The game loop of `main` -/

/-- What the player types during one turn: the menu choice and, for an
attack, the two territory ids (`none` where `scanf` reads no number). -/
structure Entrada where
  escolha : Option Int
  entradaAtacante : Option Int
  entradaDefensor : Option Int

/-- The variables of `main` that live across turns, with the random
source. -/
structure Jogo where
  mapa : List Territorio
  idMissaoJogador : Int
  jogoVencido : Int
  escolha : Int
  g : Rng

/-- The setup of `main`: allocation, `inicializarTerritorios`, then
`sortearMissao`; `escolha` starts at -1 and `jogoVencido` at 0. -/
def configurar (g : Rng) : Jogo :=
  let r := inicializarTerritorios (alocarMapa MAX_TERRITORIOS) MAX_TERRITORIOS g
  let m := sortearMissao r.2
  { mapa := r.1, idMissaoJogador := m.1, jogoVencido := 0, escolha := -1, g := m.2 }

/-- The body of the `do ... while` loop of `main`: read the choice (-1 when
no number is read), run the `switch`, then force `escolha` to 0 after a
victory.  The loop goes on while the resulting `escolha` is not 0. -/
def turno (j : Jogo) (e : Entrada) : Jogo :=
  let escolha : Int :=
    match e.escolha with
    | some x => x
    | none => -1
  let j1 : Jogo :=
    if escolha = 1 then
      let r := faseDeAtaque j.mapa MAX_TERRITORIOS COR_JOGADOR
        e.entradaAtacante e.entradaDefensor j.g
      { j with mapa := r.1, g := r.2, escolha := escolha }
    else if escolha = 2 then
      { j with
        jogoVencido := verificarVitoria j.mapa MAX_TERRITORIOS j.idMissaoJogador COR_JOGADOR,
        escolha := escolha }
    else
      { j with escolha := escolha }
  if j1.jogoVencido ≠ 0 ∧ j1.escolha ≠ 0 then { j1 with escolha := 0 } else j1

/-- The loop `do ... while (escolha != 0)` of `main`, run on the turns the
player has typed so far: it stops at the first turn that leaves `escolha`
at 0. -/
def lacoPrincipal (j : Jogo) : List Entrada → Jogo
  | [] => j
  | e :: es =>
    let j1 := turno j e
    if j1.escolha ≠ 0 then lacoPrincipal j1 es else j1

/-! ## Counting owners -/

/-- The number of territories of the map whose owner is the colour `cor`
(the count the mission rules are worded with; not a function of `war.c`). -/
def contarTerritorios (mapa : List Territorio) (cor : String) : Nat :=
  mapa.countP (fun t => decide (t.corDono = cor))

/-! ## The allocation rule -/

/-- The allocation rule of the initial map at index `i`: the first four
territories are the player's with 3 or 4 troops, the fifth is the target
enemy's with 4 to 6 troops, every later one belongs to AMARELO or VERDE with
2 or 3 troops. -/
def regraInicial (i : Nat) (t : Territorio) : Prop :=
  (i < 4 → t.corDono = COR_JOGADOR ∧ (t.tropas = 3 ∨ t.tropas = 4)) ∧
  (i = 4 → t.corDono = COR_INIMIGO_ALVO ∧ (t.tropas = 4 ∨ t.tropas = 5 ∨ t.tropas = 6)) ∧
  (4 < i → (t.corDono = "AMARELO" ∨ t.corDono = "VERDE") ∧ (t.tropas = 2 ∨ t.tropas = 3))

/-! ## The map across the turns -/

/-- A valid map of the game: `MAX_TERRITORIOS` territories, each one with at
least 1 troop and an owner that is not the empty string. -/
def mapaValido (mapa : List Territorio) : Prop :=
  (mapa.length : Int) = MAX_TERRITORIOS ∧ ∀ t ∈ mapa, 1 ≤ t.tropas ∧ t.corDono ≠ ""

/-! ## A concrete game -/

/-- A map of 10 territories for the scenario of a finished conquest: the
player holds the first four, the target enemy holds the fifth with a single
troop. -/
def mapaCenario : List Territorio :=
  [⟨"Territorio 1", "AZUL", 4⟩, ⟨"Territorio 2", "AZUL", 3⟩, ⟨"Territorio 3", "AZUL", 3⟩,
   ⟨"Territorio 4", "AZUL", 4⟩, ⟨"Territorio 5", "PRETO", 1⟩, ⟨"Territorio 6", "VERDE", 2⟩,
   ⟨"Territorio 7", "AMARELO", 3⟩, ⟨"Territorio 8", "VERDE", 3⟩,
   ⟨"Territorio 9", "AMARELO", 2⟩, ⟨"Territorio 10", "VERDE", 2⟩]

/-- A random source whose first draw is 5 and whose other draws are 0: the
attacker rolls a 6, the defender a 1. -/
def sorteAtacante : Rng := fun n => if n = 0 then 5 else 0

/-- A random source of zeros: both dice show 1. -/
def sorteZero : Rng := fun _ => 0

/-- The scenario game: the scenario map, the mission 2 (destroy the target
enemy), no victory yet, and the random source on which the attacker wins. -/
def jogoCenario : Jogo :=
  { mapa := mapaCenario, idMissaoJogador := 2, jogoVencido := 0, escolha := -1,
    g := sorteAtacante }

/-! ## One round of combat -/

/-- Unfolding of `simularAtaque`: the dice are the two next rolls and the
records are those of the body run on these dice. -/
theorem simularAtaque_eq_dados (atacante defensor : Territorio) (corJogador : String)
    (g : Rng) :
    simularAtaque atacante defensor corJogador g =
      ((simularAtaqueDados (rolarDado g).1 (rolarDado (rolarDado g).2).1
          atacante defensor corJogador).1,
       (simularAtaqueDados (rolarDado g).1 (rolarDado (rolarDado g).2).1
          atacante defensor corJogador).2,
       (rolarDado (rolarDado g).2).2) := rfl

/-- Every roll of `rolarDado` is a value from 1 to 6. -/
theorem rolarDado_faixa (g : Rng) : 1 ≤ (rolarDado g).1 ∧ (rolarDado g).1 ≤ 6 := by
  simp only [rolarDado]
  omega

/-- C1, as stated, fails: with 4 attacking troops against 1 defending troop
and dice 6 against 1 the territory is captured (the defender is at 0 after
the comparison), yet the two troop counts together go down by 1 (from 5 to
4), not by 2. -/
theorem simularAtaque_soma_captura_contra :
    (2 : Int) ≤ (Territorio.mk "Territorio 1" "AZUL" 4).tropas ∧
    (1 : Int) ≤ (Territorio.mk "Territorio 5" "PRETO" 1).tropas ∧
    (compararDados 6 1 ⟨"Territorio 1", "AZUL", 4⟩ ⟨"Territorio 5", "PRETO", 1⟩).2.tropas ≤ 0 ∧
    (simularAtaqueDados 6 1 ⟨"Territorio 1", "AZUL", 4⟩ ⟨"Territorio 5", "PRETO", 1⟩
        "AZUL").2.corDono = "AZUL" ∧
    ((Territorio.mk "Territorio 1" "AZUL" 4).tropas +
        (Territorio.mk "Territorio 5" "PRETO" 1).tropas) -
      ((simularAtaqueDados 6 1 ⟨"Territorio 1", "AZUL", 4⟩ ⟨"Territorio 5", "PRETO", 1⟩
          "AZUL").1.tropas +
        (simularAtaqueDados 6 1 ⟨"Territorio 1", "AZUL", 4⟩ ⟨"Territorio 5", "PRETO", 1⟩
          "AZUL").2.tropas) = 1 ∧
    ((Territorio.mk "Territorio 1" "AZUL" 4).tropas +
        (Territorio.mk "Territorio 5" "PRETO" 1).tropas) -
      ((simularAtaqueDados 6 1 ⟨"Territorio 1", "AZUL", 4⟩ ⟨"Territorio 5", "PRETO", 1⟩
          "AZUL").1.tropas +
        (simularAtaqueDados 6 1 ⟨"Territorio 1", "AZUL", 4⟩ ⟨"Territorio 5", "PRETO", 1⟩
          "AZUL").2.tropas) ≠ 2 := by
  simp [simularAtaqueDados, compararDados, verificarConquista]

/-- C1, amended: in every round of `simularAtaque` against a defender with at
least 1 troop (whatever the two dice show, so for all dice from 1 to 6, and
whatever the attacker holds, so for all attackers with at least 2 troops),
the sum of the two troop counts after the round is the sum before minus
exactly 1, whether the territory is captured or not. -/
theorem simularAtaque_soma_tropas (resultadoAtacante resultadoDefensor : Int)
    (atacante defensor : Territorio) (corJogador : String)
    (hdt : 1 ≤ defensor.tropas) :
    (simularAtaqueDados resultadoAtacante resultadoDefensor atacante defensor
        corJogador).1.tropas +
      (simularAtaqueDados resultadoAtacante resultadoDefensor atacante defensor
        corJogador).2.tropas =
      atacante.tropas + defensor.tropas - 1 := by
  by_cases h : resultadoAtacante > resultadoDefensor
  · by_cases h0 : defensor.tropas - 1 ≤ 0
    · simp [simularAtaqueDados, compararDados, verificarConquista, h, h0]
      omega
    · simp [simularAtaqueDados, compararDados, verificarConquista, h, h0]
      omega
  · have h0 : ¬ defensor.tropas ≤ 0 := by omega
    simp [simularAtaqueDados, compararDados, verificarConquista, h, h0]
    omega

/-- The amended C1 at 4 troops against 1 with dice 6 and 1: 3 + 1 = 4 + 1 - 1. -/
theorem simularAtaque_soma_tropas_witness :
    (simularAtaqueDados 6 1 ⟨"Territorio 1", "AZUL", 4⟩ ⟨"Territorio 5", "PRETO", 1⟩
        "AZUL").1.tropas +
      (simularAtaqueDados 6 1 ⟨"Territorio 1", "AZUL", 4⟩ ⟨"Territorio 5", "PRETO", 1⟩
        "AZUL").2.tropas =
      (Territorio.mk "Territorio 1" "AZUL" 4).tropas +
        (Territorio.mk "Territorio 5" "PRETO" 1).tropas - 1 :=
  simularAtaque_soma_tropas 6 1 ⟨"Territorio 1", "AZUL", 4⟩ ⟨"Territorio 5", "PRETO", 1⟩
    "AZUL" (by decide)

/-- C2, as stated, fails in the direction "only if": a defender that the
player already owns, with 1 troop, facing a tie of the dice, ends the round
owned by the player with exactly 1 troop although its troop count after the
comparison of the dice is 1, not at or below 0. -/
theorem simularAtaque_captura_sse_contra :
    ((simularAtaqueDados 3 3 ⟨"Territorio 1", "AZUL", 4⟩ ⟨"Territorio 2", "AZUL", 1⟩
        "AZUL").2.corDono = "AZUL" ∧
      (simularAtaqueDados 3 3 ⟨"Territorio 1", "AZUL", 4⟩ ⟨"Territorio 2", "AZUL", 1⟩
        "AZUL").2.tropas = 1) ∧
    ¬ (compararDados 3 3 ⟨"Territorio 1", "AZUL", 4⟩ ⟨"Territorio 2", "AZUL", 1⟩).2.tropas
        ≤ 0 := by
  simp [simularAtaqueDados, compararDados, verificarConquista]

/-- C2, amended: for all troop counts, owners and dice, (a) if the defender's
troop count after the comparison of the dice is at or below 0, the round ends
with the defender owned by `corJogador` and holding exactly 1 troop;
(b) otherwise the defender's owner is the one before the round and its troops
are those left by the comparison; (c) when the defender was not owned by
`corJogador` before the round, it ends owned by `corJogador` with exactly 1
troop if and only if its troop count after the comparison is at or below 0. -/
theorem simularAtaque_captura (resultadoAtacante resultadoDefensor : Int)
    (atacante defensor : Territorio) (corJogador : String) :
    ((compararDados resultadoAtacante resultadoDefensor atacante defensor).2.tropas ≤ 0 →
      (simularAtaqueDados resultadoAtacante resultadoDefensor atacante defensor
          corJogador).2.corDono = corJogador ∧
        (simularAtaqueDados resultadoAtacante resultadoDefensor atacante defensor
          corJogador).2.tropas = 1) ∧
    (¬ (compararDados resultadoAtacante resultadoDefensor atacante defensor).2.tropas ≤ 0 →
      (simularAtaqueDados resultadoAtacante resultadoDefensor atacante defensor
          corJogador).2.corDono = defensor.corDono ∧
        (simularAtaqueDados resultadoAtacante resultadoDefensor atacante defensor
          corJogador).2.tropas =
          (compararDados resultadoAtacante resultadoDefensor atacante defensor).2.tropas) ∧
    (defensor.corDono ≠ corJogador →
      (((simularAtaqueDados resultadoAtacante resultadoDefensor atacante defensor
            corJogador).2.corDono = corJogador ∧
          (simularAtaqueDados resultadoAtacante resultadoDefensor atacante defensor
            corJogador).2.tropas = 1) ↔
        (compararDados resultadoAtacante resultadoDefensor atacante defensor).2.tropas
          ≤ 0)) := by
  have hcor : (compararDados resultadoAtacante resultadoDefensor atacante defensor).2.corDono
      = defensor.corDono := by
    unfold compararDados
    split_ifs <;> rfl
  by_cases h0 :
      (compararDados resultadoAtacante resultadoDefensor atacante defensor).2.tropas ≤ 0
  · simp [simularAtaqueDados, verificarConquista, h0]
  · simp only [simularAtaqueDados, verificarConquista, h0, if_false, hcor, not_false_eq_true,
      true_implies, false_implies, true_and, and_self, iff_false, not_and]
    intro hne h
    exact absurd h hne

/-- The amended C2 on a capture: 4 troops attack the single troop of the
target enemy with dice 6 against 1. -/
theorem simularAtaque_captura_witness :
    ((simularAtaqueDados 6 1 ⟨"Territorio 1", "AZUL", 4⟩ ⟨"Territorio 5", "PRETO", 1⟩
          "AZUL").2.corDono = "AZUL" ∧
        (simularAtaqueDados 6 1 ⟨"Territorio 1", "AZUL", 4⟩ ⟨"Territorio 5", "PRETO", 1⟩
          "AZUL").2.tropas = 1) ↔
      (compararDados 6 1 ⟨"Territorio 1", "AZUL", 4⟩ ⟨"Territorio 5", "PRETO", 1⟩).2.tropas
        ≤ 0 :=
  (simularAtaque_captura 6 1 ⟨"Territorio 1", "AZUL", 4⟩ ⟨"Territorio 5", "PRETO", 1⟩
    "AZUL").2.2 (by decide)

/-- C3: in every round of `simularAtaque` in which the attacker's die is at
most the defender's die (a tie included) and the defender has at least 1
troop, the attacker loses exactly 1 troop (keeping its name and owner) and
the defender's record is unchanged. -/
theorem simularAtaque_empate_defensor (resultadoAtacante resultadoDefensor : Int)
    (atacante defensor : Territorio) (corJogador : String)
    (hdados : resultadoAtacante ≤ resultadoDefensor) (hdt : 1 ≤ defensor.tropas) :
    (simularAtaqueDados resultadoAtacante resultadoDefensor atacante defensor
        corJogador).1 = { atacante with tropas := atacante.tropas - 1 } ∧
      (simularAtaqueDados resultadoAtacante resultadoDefensor atacante defensor
        corJogador).2 = defensor := by
  have h : ¬ resultadoAtacante > resultadoDefensor := by omega
  have h0 : ¬ defensor.tropas ≤ 0 := by omega
  simp [simularAtaqueDados, compararDados, verificarConquista, h, h0]

/-- C3 on a tie of two fours: the attacker goes from 3 troops to 2, and the
other side keeps its 2 troops and its owner. -/
theorem simularAtaque_empate_defensor_witness :
    (simularAtaqueDados 4 4 ⟨"Territorio 1", "AZUL", 3⟩ ⟨"Territorio 6", "VERDE", 2⟩
        "AZUL").1 = ⟨"Territorio 1", "AZUL", 3 - 1⟩ ∧
      (simularAtaqueDados 4 4 ⟨"Territorio 1", "AZUL", 3⟩ ⟨"Territorio 6", "VERDE", 2⟩
        "AZUL").2 = ⟨"Territorio 6", "VERDE", 2⟩ :=
  simularAtaque_empate_defensor 4 4 ⟨"Territorio 1", "AZUL", 3⟩ ⟨"Territorio 6", "VERDE", 2⟩
    "AZUL" (by decide) (by decide)

/-- C10: in every round of `simularAtaque` started with an attacker of at
least 2 troops, whatever the dice and the defender (a defender at or below 0
troops included), the attacker loses at most 2 troops, gains none, and ends
with a troop count of at least 0. -/
theorem simularAtaque_atacante_limite (resultadoAtacante resultadoDefensor : Int)
    (atacante defensor : Territorio) (corJogador : String)
    (hat : 2 ≤ atacante.tropas) :
    atacante.tropas - 2 ≤
        (simularAtaqueDados resultadoAtacante resultadoDefensor atacante defensor
          corJogador).1.tropas ∧
      (simularAtaqueDados resultadoAtacante resultadoDefensor atacante defensor
          corJogador).1.tropas ≤ atacante.tropas ∧
      0 ≤ (simularAtaqueDados resultadoAtacante resultadoDefensor atacante defensor
          corJogador).1.tropas := by
  by_cases h : resultadoAtacante > resultadoDefensor
  · by_cases h0 : defensor.tropas - 1 ≤ 0
    · simp [simularAtaqueDados, compararDados, verificarConquista, h, h0]
      omega
    · simp [simularAtaqueDados, compararDados, verificarConquista, h, h0]
      omega
  · by_cases h0 : defensor.tropas ≤ 0
    · simp [simularAtaqueDados, compararDados, verificarConquista, h, h0]
      omega
    · simp [simularAtaqueDados, compararDados, verificarConquista, h, h0]
      omega

/-- C10 at its limit: 2 troops lose the dice 1 against 6 to a defender
already at 0 troops and pay the transfer as well, ending at 0. -/
theorem simularAtaque_atacante_limite_witness :
    (2 : Int) - 2 ≤
        (simularAtaqueDados 1 6 ⟨"Territorio 1", "AZUL", 2⟩ ⟨"Territorio 6", "VERDE", 0⟩
          "AZUL").1.tropas ∧
      (simularAtaqueDados 1 6 ⟨"Territorio 1", "AZUL", 2⟩ ⟨"Territorio 6", "VERDE", 0⟩
          "AZUL").1.tropas ≤ 2 ∧
      0 ≤ (simularAtaqueDados 1 6 ⟨"Territorio 1", "AZUL", 2⟩ ⟨"Territorio 6", "VERDE", 0⟩
          "AZUL").1.tropas :=
  simularAtaque_atacante_limite 1 6 ⟨"Territorio 1", "AZUL", 2⟩ ⟨"Territorio 6", "VERDE", 0⟩
    "AZUL" (by decide)

/-! ## The attack phase -/

/-- A read of the map at a position that holds a record. -/
theorem getD_of_getElem? (mapa : List Territorio) (i : Nat) (t : Territorio)
    (h : mapa[i]? = some t) : mapa.getD i default = t := by
  rw [List.getD_eq_getElem?_getD, h]
  rfl

/-- C5: whenever a validation of `faseDeAtaque` fails (attacker input not a
number, attacker id outside 1..N, attacker territory not owned by the player,
attacker troops below 2, defender input not a number, defender id outside
1..N, defender id equal to the attacker id, defender territory owned by the
player), the map after the call is the map before it and the random source
is untouched: no dice were rolled, no round was fought. -/
theorem faseDeAtaque_validacao_falha (mapa : List Territorio) (numTerritorios : Int)
    (corJogador : String) (entradaAtacante entradaDefensor : Option Int) (g : Rng)
    (h : entradaAtacante = none ∨
      (∃ idAtacante, entradaAtacante = some idAtacante ∧
        (idAtacante < 1 ∨ idAtacante > numTerritorios)) ∨
      (∃ idAtacante t, entradaAtacante = some idAtacante ∧
        mapa[(idAtacante - 1).toNat]? = some t ∧ t.corDono ≠ corJogador) ∨
      (∃ idAtacante t, entradaAtacante = some idAtacante ∧
        mapa[(idAtacante - 1).toNat]? = some t ∧ t.tropas < 2) ∨
      entradaDefensor = none ∨
      (∃ idDefensor, entradaDefensor = some idDefensor ∧
        (idDefensor < 1 ∨ idDefensor > numTerritorios)) ∨
      (∃ idDefensor, entradaDefensor = some idDefensor ∧
        entradaAtacante = some idDefensor) ∨
      (∃ idDefensor t, entradaDefensor = some idDefensor ∧
        mapa[(idDefensor - 1).toNat]? = some t ∧ t.corDono = corJogador)) :
    faseDeAtaque mapa numTerritorios corJogador entradaAtacante entradaDefensor g =
      (mapa, g) := by
  unfold faseDeAtaque
  cases entradaAtacante with
  | none => rfl
  | some idAtacante =>
    simp only
    split_ifs with h1 h2
    · rfl
    · rfl
    · cases entradaDefensor with
      | none => rfl
      | some idDefensor =>
        simp only
        split_ifs with h3 h4
        · rfl
        · rfl
        · exfalso
          rcases h with h | ⟨ia, he, hr⟩ | ⟨ia, t, he, ht, hc⟩ | ⟨ia, t, he, ht, hc⟩ | h |
            ⟨idf, he, hr⟩ | ⟨idf, he, he2⟩ | ⟨idf, t, he, ht, hc⟩
          · cases h
          · cases he
            exact h1 hr
          · cases he
            rw [getD_of_getElem? mapa _ t ht] at h2
            exact h2 (Or.inl hc)
          · cases he
            rw [getD_of_getElem? mapa _ t ht] at h2
            exact h2 (Or.inr hc)
          · cases h
          · cases he
            rcases hr with hr | hr
            · exact h3 (Or.inl hr)
            · exact h3 (Or.inr (Or.inl hr))
          · cases he
            cases he2
            exact h3 (Or.inr (Or.inr rfl))
          · cases he
            rw [getD_of_getElem? mapa _ t ht] at h4
            exact h4 hc

/-- The validation of C5 at work: territory 5 of the scenario map is not the
player's, so an attack from it changes nothing. -/
theorem faseDeAtaque_validacao_falha_witness :
    faseDeAtaque mapaCenario MAX_TERRITORIOS COR_JOGADOR (some 5) (some 1) sorteZero =
      (mapaCenario, sorteZero) :=
  faseDeAtaque_validacao_falha mapaCenario MAX_TERRITORIOS COR_JOGADOR (some 5) (some 1)
    sorteZero
    (Or.inr (Or.inr (Or.inl ⟨5, ⟨"Territorio 5", "PRETO", 1⟩, rfl, rfl, by decide⟩)))

/-- C4: on a map of 10 territories whose index 0 is the player's with `a`
troops, `a` at least 2, and whose index 4 is the target enemy's with exactly
1 troop, `faseDeAtaque` with attacker id 1, defender id 5 and dice on which
the attacker's roll is above the defender's leaves index 4 owned by the
player with exactly 1 troop and index 0 with exactly `a - 1` troops; names
and the attacker's owner stay. -/
theorem faseDeAtaque_cenario_conquista (mapa : List Territorio) (a : Int)
    (nome0 nome4 : String) (g : Rng)
    (hlen : mapa.length = 10)
    (h0 : mapa[0]? = some ⟨nome0, COR_JOGADOR, a⟩) (ha : 2 ≤ a)
    (h4 : mapa[4]? = some ⟨nome4, COR_INIMIGO_ALVO, 1⟩)
    (hdados : (rolarDado g).1 > (rolarDado (rolarDado g).2).1) :
    (faseDeAtaque mapa MAX_TERRITORIOS COR_JOGADOR (some 1) (some 5) g).1[4]? =
        some ⟨nome4, COR_JOGADOR, 1⟩ ∧
      (faseDeAtaque mapa MAX_TERRITORIOS COR_JOGADOR (some 1) (some 5) g).1[0]? =
        some ⟨nome0, COR_JOGADOR, a - 1⟩ := by
  have hcor : ¬ COR_INIMIGO_ALVO = COR_JOGADOR := by decide
  have hat : ¬ a < 2 := by omega
  have hsim : simularAtaqueDados (rolarDado g).1 (rolarDado (rolarDado g).2).1
      ⟨nome0, COR_JOGADOR, a⟩ ⟨nome4, COR_INIMIGO_ALVO, 1⟩ COR_JOGADOR =
      (⟨nome0, COR_JOGADOR, a - 1⟩, ⟨nome4, COR_JOGADOR, 1⟩) := by
    simp [simularAtaqueDados, compararDados, verificarConquista, hdados]
  have hfase : (faseDeAtaque mapa MAX_TERRITORIOS COR_JOGADOR (some 1) (some 5) g).1 =
      (mapa.set 0 ⟨nome0, COR_JOGADOR, a - 1⟩).set 4 ⟨nome4, COR_JOGADOR, 1⟩ := by
    simp [faseDeAtaque, MAX_TERRITORIOS, h0, h4, hcor, hat, simularAtaque_eq_dados, hsim]
  rw [hfase]
  constructor
  · rw [List.getElem?_set]
    simp [hlen]
  · rw [List.getElem?_set_ne (by decide), List.getElem?_set]
    simp [hlen]

/-- C4 on the scenario map, with 4 troops attacking and the dice 6 against
1. -/
theorem faseDeAtaque_cenario_conquista_witness :
    (faseDeAtaque mapaCenario MAX_TERRITORIOS COR_JOGADOR (some 1) (some 5)
        sorteAtacante).1[4]? = some ⟨"Territorio 5", COR_JOGADOR, 1⟩ ∧
      (faseDeAtaque mapaCenario MAX_TERRITORIOS COR_JOGADOR (some 1) (some 5)
        sorteAtacante).1[0]? = some ⟨"Territorio 1", COR_JOGADOR, 4 - 1⟩ :=
  faseDeAtaque_cenario_conquista mapaCenario 4 "Territorio 1" "Territorio 5" sorteAtacante
    rfl rfl (by decide) rfl (by decide)

/-! ## Missions -/

/-- The count over two pieces of a map is the sum of the counts. -/
theorem contarTerritorios_append (m1 m2 : List Territorio) (cor : String) :
    contarTerritorios (m1 ++ m2) cor = contarTerritorios m1 cor + contarTerritorios m2 cor := by
  simp [contarTerritorios, List.countP_append]

/-- The count over a single territory. -/
theorem contarTerritorios_singleton (t : Territorio) (cor : String) :
    contarTerritorios [t] cor = if t.corDono = cor then 1 else 0 := by
  by_cases h : t.corDono = cor <;> simp [contarTerritorios, h]

/-- The loop of `verificarVitoria` after `k` iterations: the counter holds the
number of the player's territories among the first `k`, the flag is set when
one of the first `k` belongs to the target enemy. -/
theorem verificar_laco (mapa : List Territorio) (cor : String) (k : Nat)
    (hk : k ≤ mapa.length) :
    (List.range k).foldl (verificarPasso mapa cor) (0, 0) =
      (((contarTerritorios (mapa.take k) cor : Nat) : Int),
       if contarTerritorios (mapa.take k) COR_INIMIGO_ALVO = 0 then 0 else 1) := by
  induction k with
  | zero => simp [contarTerritorios]
  | succ k ih =>
    have hlt : k < mapa.length := by omega
    have hget : mapa[k]? = some mapa[k] := List.getElem?_eq_getElem hlt
    rw [List.range_succ, List.foldl_append, ih (by omega), List.take_succ, hget]
    simp only [List.foldl_cons, List.foldl_nil, verificarPasso, Option.toList,
      contarTerritorios_append, getD_of_getElem? mapa k _ hget]
    generalize mapa[k] = t
    rw [contarTerritorios_singleton, contarTerritorios_singleton]
    refine Prod.ext ?_ ?_
    · simp only
      split_ifs <;> simp
    · simp only
      split_ifs <;> first | rfl | contradiction
    
/-- The loop of `verificarVitoria` run over the whole map. -/
theorem verificar_laco_total (mapa : List Territorio) (numTerritorios : Int) (cor : String)
    (hn : (mapa.length : Int) = numTerritorios) :
    (List.range numTerritorios.toNat).foldl (verificarPasso mapa cor) (0, 0) =
      (((contarTerritorios mapa cor : Nat) : Int),
       if contarTerritorios mapa COR_INIMIGO_ALVO = 0 then 0 else 1) := by
  have hk : numTerritorios.toNat = mapa.length := by omega
  rw [hk, verificar_laco mapa cor mapa.length (le_refl _), List.take_length]

/-- The count is 0 exactly when no territory has the colour. -/
theorem contarTerritorios_eq_zero (mapa : List Territorio) (cor : String) :
    contarTerritorios mapa cor = 0 ↔ ∀ t ∈ mapa, t.corDono ≠ cor := by
  simp [contarTerritorios, List.countP_eq_zero]

/-- C6: on a map of `numTerritorios` territories, `verificarVitoria` with
mission 1 returns 1 (true) if and only if at least 6 territories are owned by
the player colour and 0 (false) otherwise; with mission 3 the same with 8;
so exactly 5 player territories give false and exactly 6 give true for
mission 1. -/
theorem verificarVitoria_conquistar (mapa : List Territorio) (numTerritorios : Int)
    (corJogador : String) (hn : (mapa.length : Int) = numTerritorios) :
    (verificarVitoria mapa numTerritorios 1 corJogador = 1 ↔
        6 ≤ contarTerritorios mapa corJogador) ∧
      (verificarVitoria mapa numTerritorios 1 corJogador = 0 ↔
        contarTerritorios mapa corJogador < 6) ∧
      (verificarVitoria mapa numTerritorios 3 corJogador = 1 ↔
        8 ≤ contarTerritorios mapa corJogador) ∧
      (verificarVitoria mapa numTerritorios 3 corJogador = 0 ↔
        contarTerritorios mapa corJogador < 8) ∧
      (contarTerritorios mapa corJogador = 5 →
        verificarVitoria mapa numTerritorios 1 corJogador = 0) ∧
      (contarTerritorios mapa corJogador = 6 →
        verificarVitoria mapa numTerritorios 1 corJogador = 1) := by
  simp only [verificarVitoria, verificar_laco_total mapa numTerritorios corJogador hn]
  refine ⟨?_, ?_, ?_, ?_, ?_, ?_⟩ <;> simp <;> omega

/-- C7: on a map of `numTerritorios` territories, `verificarVitoria` with
mission 2 returns 1 (true) if and only if no territory is owned by the target
enemy colour `COR_INIMIGO_ALVO`, and 0 (false) if and only if some territory
is; troop counts play no part.  Exactly one such territory gives false,
none gives true. -/
theorem verificarVitoria_destruir (mapa : List Territorio) (numTerritorios : Int)
    (corJogador : String) (hn : (mapa.length : Int) = numTerritorios) :
    (verificarVitoria mapa numTerritorios 2 corJogador = 1 ↔
        ∀ t ∈ mapa, t.corDono ≠ COR_INIMIGO_ALVO) ∧
      (verificarVitoria mapa numTerritorios 2 corJogador = 0 ↔
        ∃ t ∈ mapa, t.corDono = COR_INIMIGO_ALVO) ∧
      (contarTerritorios mapa COR_INIMIGO_ALVO = 1 →
        verificarVitoria mapa numTerritorios 2 corJogador = 0) ∧
      (contarTerritorios mapa COR_INIMIGO_ALVO = 0 →
        verificarVitoria mapa numTerritorios 2 corJogador = 1) := by
  simp only [verificarVitoria, verificar_laco_total mapa numTerritorios corJogador hn]
  have hz := contarTerritorios_eq_zero mapa COR_INIMIGO_ALVO
  by_cases h : contarTerritorios mapa COR_INIMIGO_ALVO = 0
  · have h' := hz.mp h
    simp [h]
    exact h'
  · have h' : ∃ t ∈ mapa, t.corDono = COR_INIMIGO_ALVO := by
      by_contra hc
      push_neg at hc
      exact h (hz.mpr hc)
    simp [h]
    exact h'

/-- C6 on the scenario map, where the player holds 4 territories: mission 1
is not fulfilled. -/
theorem verificarVitoria_conquistar_witness :
    (mapaCenario.length : Int) = MAX_TERRITORIOS ∧
      verificarVitoria mapaCenario MAX_TERRITORIOS 1 COR_JOGADOR = 0 :=
  ⟨by decide,
   (verificarVitoria_conquistar mapaCenario MAX_TERRITORIOS COR_JOGADOR
      (by decide)).2.1.mpr (by decide)⟩

/-- C7 on the scenario map, where territory 5 is the target enemy's: mission
2 is not fulfilled. -/
theorem verificarVitoria_destruir_witness :
    (mapaCenario.length : Int) = MAX_TERRITORIOS ∧
      verificarVitoria mapaCenario MAX_TERRITORIOS 2 COR_JOGADOR = 0 :=
  ⟨by decide,
   (verificarVitoria_destruir mapaCenario MAX_TERRITORIOS COR_JOGADOR
      (by decide)).2.1.mpr ⟨⟨"Territorio 5", "PRETO", 1⟩, by decide, by decide⟩⟩

/-! ## The initial map -/

/-- One iteration of the loop of `inicializarTerritorios` writes, at index
`i` only, a record that follows the allocation rule. -/
theorem inicializarPasso_regra (st : List Territorio × Rng) (i : Nat) :
    ∃ t, (inicializarPasso st i).1 = st.1.set i t ∧ regraInicial i t := by
  unfold inicializarPasso
  by_cases h1 : i < 4
  · simp only [h1, if_true]
    refine ⟨_, rfl, ?_⟩
    unfold regraInicial
    refine ⟨fun _ => ⟨rfl, ?_⟩, fun h => ?_, fun h => ?_⟩
    · simp only
      omega
    · omega
    · omega
  · by_cases h2 : i = 4
    · simp only [h1, h2, if_true, if_false]
      refine ⟨_, rfl, ?_⟩
      unfold regraInicial
      refine ⟨fun h => ?_, fun _ => ⟨rfl, ?_⟩, fun h => ?_⟩
      · omega
      · simp only
        omega
      · omega
    · simp only [h1, h2, if_false]
      refine ⟨_, rfl, ?_⟩
      unfold regraInicial
      refine ⟨fun h => ?_, fun h => ?_, fun _ => ⟨?_, ?_⟩⟩
      · omega
      · omega
      · simp only [obterNomeCor]
        rcases Nat.mod_two_eq_zero_or_one (rand st.2).1 with h | h <;> simp [h]
      · simp only
        omega

/-- The loop of `inicializarTerritorios` after `k` iterations: the map keeps
its length, every index below `k` holds a record that follows the allocation
rule, every index from `k` on is as before. -/
theorem inicializar_laco (mapa : List Territorio) (g : Rng) (k : Nat) :
    ((List.range k).foldl inicializarPasso (mapa, g)).1.length = mapa.length ∧
      (∀ j, j < k → j < mapa.length →
        ∃ t, ((List.range k).foldl inicializarPasso (mapa, g)).1[j]? = some t ∧
          regraInicial j t) ∧
      (∀ j, k ≤ j → ((List.range k).foldl inicializarPasso (mapa, g)).1[j]? = mapa[j]?) := by
  induction k with
  | zero => simp
  | succ k ih =>
    obtain ⟨hlen, hlow, hhigh⟩ := ih
    rw [List.range_succ, List.foldl_append]
    simp only [List.foldl_cons, List.foldl_nil]
    obtain ⟨t, ht, hregra⟩ :=
      inicializarPasso_regra ((List.range k).foldl inicializarPasso (mapa, g)) k
    rw [ht]
    refine ⟨?_, ?_, ?_⟩
    · rw [List.length_set, hlen]
    · intro j hj hjl
      by_cases hjk : j = k
      · subst hjk
        refine ⟨t, ?_, hregra⟩
        rw [List.getElem?_set]
        simp [hlen, hjl]
      · rw [List.getElem?_set_ne (Ne.symm hjk)]
        exact hlow j (by omega) hjl
    · intro j hj
      rw [List.getElem?_set_ne (by omega)]
      exact hhigh j (by omega)

/-- The map after `inicializarTerritorios`, for a map of `numTerritorios`
records: same length, and the allocation rule at every index. -/
theorem inicializarTerritorios_regra (mapa : List Territorio) (numTerritorios : Int)
    (g : Rng) (hn : (mapa.length : Int) = numTerritorios) :
    (inicializarTerritorios mapa numTerritorios g).1.length = mapa.length ∧
      ∀ i t, (inicializarTerritorios mapa numTerritorios g).1[i]? = some t →
        regraInicial i t := by
  have hk : numTerritorios.toNat = mapa.length := by omega
  obtain ⟨hlen, hlow, _⟩ := inicializar_laco mapa g numTerritorios.toNat
  refine ⟨hlen, ?_⟩
  intro i t hit
  have hi : i < mapa.length := by
    have := (List.getElem?_eq_some.mp hit).1
    unfold inicializarTerritorios at this
    omega
  obtain ⟨t', ht', hr⟩ := hlow i (by omega) hi
  unfold inicializarTerritorios at hit
  rw [ht'] at hit
  cases hit
  exact hr

/-- C8: for every count (so for every count of at least 5) and every stream
of random draws, after `inicializarTerritorios` on a map of that many records
the map still has that many territories and each of them has more than 0
troops and an owner that is not the empty string. -/
theorem inicializarTerritorios_tropas_dono (mapa : List Territorio) (numTerritorios : Int)
    (g : Rng) (hn : (mapa.length : Int) = numTerritorios) :
    ((inicializarTerritorios mapa numTerritorios g).1.length : Int) = numTerritorios ∧
      ∀ t ∈ (inicializarTerritorios mapa numTerritorios g).1,
        0 < t.tropas ∧ t.corDono ≠ "" := by
  obtain ⟨hlen, hregra⟩ := inicializarTerritorios_regra mapa numTerritorios g hn
  refine ⟨by omega, ?_⟩
  intro t ht
  obtain ⟨i, hi⟩ := List.mem_iff_getElem?.mp ht
  obtain ⟨h1, h2, h3⟩ := hregra i t hi
  rcases Nat.lt_trichotomy i 4 with h | h | h
  · obtain ⟨hc, ht⟩ := h1 h
    rw [hc]
    exact ⟨by omega, by decide⟩
  · obtain ⟨hc, ht⟩ := h2 h
    rw [hc]
    exact ⟨by omega, by decide⟩
  · obtain ⟨hc, ht⟩ := h3 h
    refine ⟨by omega, ?_⟩
    rcases hc with hc | hc <;> rw [hc] <;> decide

/-- C9: for every count (so for every count of at least 5) and every stream
of random draws, `inicializarTerritorios` on a map of that many records
yields a map of that many territories in which indices 0 to 3 are owned by
`COR_JOGADOR` (AZUL)
with 3 or 4 troops, index 4 is owned by `COR_INIMIGO_ALVO` (PRETO) with 4, 5
or 6 troops, and every index above 4 is owned by AMARELO or VERDE, so by
neither AZUL nor PRETO, with 2 or 3 troops. -/
theorem inicializarTerritorios_faixas (mapa : List Territorio) (numTerritorios : Int)
    (g : Rng) (hn : (mapa.length : Int) = numTerritorios) :
    ((inicializarTerritorios mapa numTerritorios g).1.length : Int) = numTerritorios ∧
      ∀ i t, (inicializarTerritorios mapa numTerritorios g).1[i]? = some t →
        (i < 4 → t.corDono = COR_JOGADOR ∧ (t.tropas = 3 ∨ t.tropas = 4)) ∧
        (i = 4 → t.corDono = COR_INIMIGO_ALVO ∧
          (t.tropas = 4 ∨ t.tropas = 5 ∨ t.tropas = 6)) ∧
        (4 < i → (t.corDono = "AMARELO" ∨ t.corDono = "VERDE") ∧
          t.corDono ≠ COR_JOGADOR ∧ t.corDono ≠ COR_INIMIGO_ALVO ∧
          (t.tropas = 2 ∨ t.tropas = 3)) := by
  obtain ⟨hlen, hregra⟩ := inicializarTerritorios_regra mapa numTerritorios g hn
  refine ⟨by omega, ?_⟩
  intro i t hit
  obtain ⟨h1, h2, h3⟩ := hregra i t hit
  refine ⟨h1, h2, fun h => ?_⟩
  obtain ⟨hc, ht⟩ := h3 h
  refine ⟨hc, ?_, ?_, ht⟩
  · rcases hc with hc | hc <;> rw [hc] <;> decide
  · rcases hc with hc | hc <;> rw [hc] <;> decide

/-- C8 on the map of the game: 10 zeroed records from `alocarMapa`, filled
with a random source of zeros. -/
theorem inicializarTerritorios_tropas_dono_witness :
    (((alocarMapa MAX_TERRITORIOS).length : Int) = MAX_TERRITORIOS) ∧
      (((inicializarTerritorios (alocarMapa MAX_TERRITORIOS) MAX_TERRITORIOS
          sorteZero).1.length : Int) = MAX_TERRITORIOS ∧
        ∀ t ∈ (inicializarTerritorios (alocarMapa MAX_TERRITORIOS) MAX_TERRITORIOS
            sorteZero).1,
          0 < t.tropas ∧ t.corDono ≠ "") :=
  ⟨by decide,
   inicializarTerritorios_tropas_dono (alocarMapa MAX_TERRITORIOS) MAX_TERRITORIOS sorteZero
     (by decide)⟩

/-- C9 on the map of the game, filled with the random source that starts
with a 5: the fifth territory is the target enemy's with 4 to 6 troops. -/
theorem inicializarTerritorios_faixas_witness :
    (((alocarMapa MAX_TERRITORIOS).length : Int) = MAX_TERRITORIOS) ∧
      ∀ t, (inicializarTerritorios (alocarMapa MAX_TERRITORIOS) MAX_TERRITORIOS
          sorteAtacante).1[4]? = some t →
        t.corDono = COR_INIMIGO_ALVO ∧ (t.tropas = 4 ∨ t.tropas = 5 ∨ t.tropas = 6) :=
  ⟨by decide,
   fun t ht =>
     ((inicializarTerritorios_faixas (alocarMapa MAX_TERRITORIOS) MAX_TERRITORIOS
        sorteAtacante (by decide)).2 4 t ht).2.1 rfl⟩



/-! ## More on a round of combat -/

/-- C17: in every round of `simularAtaque` in which the attacker's die is
strictly above the defender's die and the defender has at least 2 troops,
the defender loses exactly 1 troop and keeps its name and owner, and the
attacker's record is unchanged: no capture, no transfer cost. -/
theorem simularAtaque_vitoria_sem_conquista (resultadoAtacante resultadoDefensor : Int)
    (atacante defensor : Territorio) (corJogador : String)
    (hdados : resultadoAtacante > resultadoDefensor) (hdt : 2 ≤ defensor.tropas) :
    (simularAtaqueDados resultadoAtacante resultadoDefensor atacante defensor
        corJogador).1 = atacante ∧
      (simularAtaqueDados resultadoAtacante resultadoDefensor atacante defensor
        corJogador).2 = { defensor with tropas := defensor.tropas - 1 } := by
  have h0 : ¬ defensor.tropas - 1 ≤ 0 := by omega
  simp [simularAtaqueDados, compararDados, verificarConquista, hdados, h0]

/-- C17 with dice 5 against 2: the defender goes from 3 troops to 2 and stays
VERDE, the attacker keeps its 4 troops. -/
theorem simularAtaque_vitoria_sem_conquista_witness :
    (simularAtaqueDados 5 2 ⟨"Territorio 1", "AZUL", 4⟩ ⟨"Territorio 8", "VERDE", 3⟩
        "AZUL").1 = ⟨"Territorio 1", "AZUL", 4⟩ ∧
      (simularAtaqueDados 5 2 ⟨"Territorio 1", "AZUL", 4⟩ ⟨"Territorio 8", "VERDE", 3⟩
        "AZUL").2 = ⟨"Territorio 8", "VERDE", 3 - 1⟩ :=
  simularAtaque_vitoria_sem_conquista 5 2 ⟨"Territorio 1", "AZUL", 4⟩
    ⟨"Territorio 8", "VERDE", 3⟩ "AZUL" (by decide) (by decide)

/-! ## Mission ids -/

/-- C14: for every map and every mission id other than 1, 2 and 3,
`verificarVitoria` returns 0 (false); so it does for the ids -1 (the value
before the draw), 0 and 4. -/
theorem verificarVitoria_missao_desconhecida (mapa : List Territorio)
    (numTerritorios : Int) (idMissao : Int) (corJogador : String)
    (h1 : idMissao ≠ 1) (h2 : idMissao ≠ 2) (h3 : idMissao ≠ 3) :
    verificarVitoria mapa numTerritorios idMissao corJogador = 0 ∧
      verificarVitoria mapa numTerritorios (-1) corJogador = 0 ∧
      verificarVitoria mapa numTerritorios 0 corJogador = 0 ∧
      verificarVitoria mapa numTerritorios 4 corJogador = 0 := by
  refine ⟨?_, ?_, ?_, ?_⟩
  · simp [verificarVitoria, h1, h2, h3]
  · simp [verificarVitoria]
  · simp [verificarVitoria]
  · simp [verificarVitoria]

/-- C14 on the scenario map with the mission id 7. -/
theorem verificarVitoria_missao_desconhecida_witness :
    verificarVitoria mapaCenario MAX_TERRITORIOS 7 COR_JOGADOR = 0 :=
  (verificarVitoria_missao_desconhecida mapaCenario MAX_TERRITORIOS 7 COR_JOGADOR
    (by decide) (by decide) (by decide)).1

/-- C15: for every random draw `sortearMissao` returns 1, 2 or 3; each of the
three ids is returned for some draw; and the mission that the setup of
`main` assigns is 1, 2 or 3, one of the ids `verificarVitoria` has a case
for. -/
theorem sortearMissao_faixa :
    (∀ g : Rng, (sortearMissao g).1 = 1 ∨ (sortearMissao g).1 = 2 ∨
        (sortearMissao g).1 = 3) ∧
      (∃ g : Rng, (sortearMissao g).1 = 1) ∧
      (∃ g : Rng, (sortearMissao g).1 = 2) ∧
      (∃ g : Rng, (sortearMissao g).1 = 3) ∧
      (∀ g : Rng, (configurar g).idMissaoJogador = 1 ∨ (configurar g).idMissaoJogador = 2 ∨
        (configurar g).idMissaoJogador = 3) := by
  have hfaixa : ∀ g : Rng, (sortearMissao g).1 = 1 ∨ (sortearMissao g).1 = 2 ∨
      (sortearMissao g).1 = 3 := by
    intro g
    simp only [sortearMissao, MAX_MISSOES]
    omega
  refine ⟨hfaixa, ⟨fun _ => 0, ?_⟩, ⟨fun _ => 1, ?_⟩, ⟨fun _ => 2, ?_⟩, ?_⟩
  · simp [sortearMissao, rand, MAX_MISSOES]
  · simp [sortearMissao, rand, MAX_MISSOES]
  · simp [sortearMissao, rand, MAX_MISSOES]
  · intro g
    exact hfaixa _

/-! ## The turn loop -/

/-- C11: in a turn of the loop of `main` that starts with `jogoVencido` at 0
(as every turn of the loop does), the turn ends the game, leaving `escolha`
at 0, if and only if the choice typed is 0 or the choice is 2 and
`verificarVitoria` is true on the current map; a turn whose choice is 1
neither ends the game nor sets `jogoVencido`, whatever the map after the
attack; and a turn that does not end the game leaves `jogoVencido` at 0 for
the next one. -/
theorem turno_fim_de_jogo (j : Jogo) (e : Entrada) (h0 : j.jogoVencido = 0) :
    ((turno j e).escolha = 0 ↔
        (e.escolha = some 0 ∨
          (e.escolha = some 2 ∧
            verificarVitoria j.mapa MAX_TERRITORIOS j.idMissaoJogador COR_JOGADOR ≠ 0))) ∧
      (e.escolha = some 1 → (turno j e).escolha ≠ 0 ∧ (turno j e).jogoVencido = 0) ∧
      ((turno j e).escolha ≠ 0 → (turno j e).jogoVencido = 0) := by
  obtain ⟨esc, ea, ed⟩ := e
  cases esc with
  | none => simp [turno, h0]
  | some x =>
    by_cases hx1 : x = 1
    · subst hx1
      simp [turno, h0]
    · by_cases hx2 : x = 2
      · subst hx2
        by_cases hv :
            verificarVitoria j.mapa MAX_TERRITORIOS j.idMissaoJogador COR_JOGADOR = 0
        · simp [turno, hv]
        · simp [turno, hv]
      · by_cases hx0 : x = 0
        · subst hx0
          simp [turno, h0]
        · simp [turno, h0, hx1, hx2, hx0]

/-! ## An accepted attack -/

/-- Writing back the record that a position already holds changes nothing. -/
theorem set_mesmo {α : Type} (l : List α) (i : Nat) (x : α) (h : l[i]? = some x) :
    l.set i x = l := by
  induction l generalizing i with
  | nil => rfl
  | cons y l ih =>
    cases i with
    | zero =>
      simp only [List.getElem?_cons_zero, Option.some.injEq] at h
      simp [h]
    | succ i =>
      simp only [List.getElem?_cons_succ] at h
      simp [ih i h]

/-- A round of `simularAtaque` changes no name and never the attacker's
owner. -/
theorem simularAtaqueDados_nomes (resultadoAtacante resultadoDefensor : Int)
    (atacante defensor : Territorio) (corJogador : String) :
    (simularAtaqueDados resultadoAtacante resultadoDefensor atacante defensor
        corJogador).1.nome = atacante.nome ∧
      (simularAtaqueDados resultadoAtacante resultadoDefensor atacante defensor
        corJogador).2.nome = defensor.nome ∧
      (simularAtaqueDados resultadoAtacante resultadoDefensor atacante defensor
        corJogador).1.corDono = atacante.corDono := by
  unfold simularAtaqueDados compararDados
  by_cases h : resultadoAtacante > resultadoDefensor
  · simp only [h, if_true]
    unfold verificarConquista
    split_ifs <;> simp
  · simp only [h, if_false]
    unfold verificarConquista
    split_ifs <;> simp

/-- When every validation passes, `faseDeAtaque` runs `simularAtaque` once on
the two selected records and writes both back. -/
theorem faseDeAtaque_aceito (mapa : List Territorio) (numTerritorios : Int)
    (corJogador : String) (idAtacante idDefensor : Int) (atacante defensor : Territorio)
    (g : Rng)
    (hia : 1 ≤ idAtacante ∧ idAtacante ≤ numTerritorios)
    (ha : mapa[(idAtacante - 1).toNat]? = some atacante)
    (hac : atacante.corDono = corJogador) (hat : 2 ≤ atacante.tropas)
    (hid : 1 ≤ idDefensor ∧ idDefensor ≤ numTerritorios) (hne : idDefensor ≠ idAtacante)
    (hd : mapa[(idDefensor - 1).toNat]? = some defensor)
    (hdc : defensor.corDono ≠ corJogador) :
    faseDeAtaque mapa numTerritorios corJogador (some idAtacante) (some idDefensor) g =
      ((mapa.set (idAtacante - 1).toNat (simularAtaque atacante defensor corJogador g).1).set
          (idDefensor - 1).toNat (simularAtaque atacante defensor corJogador g).2.1,
        (simularAtaque atacante defensor corJogador g).2.2) := by
  have h1 : ¬ (idAtacante < 1 ∨ idAtacante > numTerritorios) := by omega
  have h2 : ¬ (atacante.corDono ≠ corJogador ∨ atacante.tropas < 2) := by
    rintro (h | h)
    · exact h hac
    · omega
  have h3 : ¬ (idDefensor < 1 ∨ idDefensor > numTerritorios ∨ idDefensor = idAtacante) := by
    rintro (h | h | h)
    · omega
    · omega
    · exact hne h
  unfold faseDeAtaque
  simp only [getD_of_getElem? mapa _ _ ha, getD_of_getElem? mapa _ _ hd, h1, h2, h3, hdc,
    if_false]

/-- The two outcomes of `faseDeAtaque` on a map of `numTerritorios` records:
either nothing happens, or every validation has passed and one round has
been fought between two distinct records of the map. -/
theorem faseDeAtaque_casos (mapa : List Territorio) (numTerritorios : Int)
    (corJogador : String) (entradaAtacante entradaDefensor : Option Int) (g : Rng)
    (hn : (mapa.length : Int) = numTerritorios) :
    faseDeAtaque mapa numTerritorios corJogador entradaAtacante entradaDefensor g = (mapa, g) ∨
    ∃ idAtacante idDefensor atacante defensor,
      entradaAtacante = some idAtacante ∧ entradaDefensor = some idDefensor ∧
      (1 ≤ idAtacante ∧ idAtacante ≤ numTerritorios) ∧
      (1 ≤ idDefensor ∧ idDefensor ≤ numTerritorios) ∧ idDefensor ≠ idAtacante ∧
      mapa[(idAtacante - 1).toNat]? = some atacante ∧
      mapa[(idDefensor - 1).toNat]? = some defensor ∧
      atacante.corDono = corJogador ∧ 2 ≤ atacante.tropas ∧
      defensor.corDono ≠ corJogador ∧
      faseDeAtaque mapa numTerritorios corJogador entradaAtacante entradaDefensor g =
        ((mapa.set (idAtacante - 1).toNat
              (simularAtaque atacante defensor corJogador g).1).set
            (idDefensor - 1).toNat (simularAtaque atacante defensor corJogador g).2.1,
          (simularAtaque atacante defensor corJogador g).2.2) := by
  cases entradaAtacante with
  | none => exact Or.inl rfl
  | some idAtacante =>
    cases entradaDefensor with
    | none =>
      left
      unfold faseDeAtaque
      simp only
      split_ifs <;> rfl
    | some idDefensor =>
      by_cases h1 : idAtacante < 1 ∨ idAtacante > numTerritorios
      · left
        simp [faseDeAtaque, h1]
      · by_cases h3 : idDefensor < 1 ∨ idDefensor > numTerritorios ∨ idDefensor = idAtacante
        · left
          unfold faseDeAtaque
          simp only [h1, h3, if_true, if_false]
          split_ifs <;> rfl
        · have hia : (idAtacante - 1).toNat < mapa.length := by omega
          have hid : (idDefensor - 1).toNat < mapa.length := by omega
          have ha := List.getElem?_eq_getElem hia
          have hd := List.getElem?_eq_getElem hid
          by_cases h2 : mapa[(idAtacante - 1).toNat].corDono ≠ corJogador ∨
              mapa[(idAtacante - 1).toNat].tropas < 2
          · left
            unfold faseDeAtaque
            simp only [getD_of_getElem? mapa _ _ ha, h1, h2, if_true, if_false]
          · by_cases h4 : mapa[(idDefensor - 1).toNat].corDono = corJogador
            · left
              unfold faseDeAtaque
              simp only [getD_of_getElem? mapa _ _ ha, getD_of_getElem? mapa _ _ hd,
                h1, h2, h3, h4, if_true, if_false]
            · right
              push_neg at h2
              refine ⟨idAtacante, idDefensor, _, _, rfl, rfl, by omega, by omega,
                fun h => h3 (Or.inr (Or.inr h)), ha, hd, h2.1, h2.2, h4, ?_⟩
              exact faseDeAtaque_aceito mapa numTerritorios corJogador idAtacante idDefensor
                _ _ g (by omega) ha h2.1 h2.2 (by omega) (fun h => h3 (Or.inr (Or.inr h)))
                hd h4

/-- What a round does to the two troop counts when the attacker starts with
at least 2 troops and the defender with at least 1: each count goes down by
at most 1 and stays at 1 or more. -/
theorem simularAtaqueDados_limites (resultadoAtacante resultadoDefensor : Int)
    (atacante defensor : Territorio) (corJogador : String)
    (hat : 2 ≤ atacante.tropas) (hdt : 1 ≤ defensor.tropas) :
    (1 ≤ (simularAtaqueDados resultadoAtacante resultadoDefensor atacante defensor
          corJogador).1.tropas ∧
      atacante.tropas - 1 ≤
        (simularAtaqueDados resultadoAtacante resultadoDefensor atacante defensor
          corJogador).1.tropas ∧
      (simularAtaqueDados resultadoAtacante resultadoDefensor atacante defensor
          corJogador).1.tropas ≤ atacante.tropas) ∧
    (1 ≤ (simularAtaqueDados resultadoAtacante resultadoDefensor atacante defensor
          corJogador).2.tropas ∧
      defensor.tropas - 1 ≤
        (simularAtaqueDados resultadoAtacante resultadoDefensor atacante defensor
          corJogador).2.tropas ∧
      (simularAtaqueDados resultadoAtacante resultadoDefensor atacante defensor
          corJogador).2.tropas ≤ defensor.tropas) := by
  by_cases h : resultadoAtacante > resultadoDefensor
  · by_cases h0 : defensor.tropas - 1 ≤ 0
    · simp [simularAtaqueDados, compararDados, verificarConquista, h, h0]
      omega
    · simp [simularAtaqueDados, compararDados, verificarConquista, h, h0]
      omega
  · have h0 : ¬ defensor.tropas ≤ 0 := by omega
    simp [simularAtaqueDados, compararDados, verificarConquista, h, h0]
    omega

/-- After a round the defender's owner is the one before or `corJogador`. -/
theorem simularAtaqueDados_dono (resultadoAtacante resultadoDefensor : Int)
    (atacante defensor : Territorio) (corJogador : String) :
    (simularAtaqueDados resultadoAtacante resultadoDefensor atacante defensor
        corJogador).2.corDono = defensor.corDono ∨
      (simularAtaqueDados resultadoAtacante resultadoDefensor atacante defensor
        corJogador).2.corDono = corJogador := by
  unfold simularAtaqueDados compararDados
  by_cases h : resultadoAtacante > resultadoDefensor
  · simp only [h, if_true]
    unfold verificarConquista
    split_ifs
    · exact Or.inr rfl
    · exact Or.inl rfl
  · simp only [h, if_false]
    unfold verificarConquista
    split_ifs
    · exact Or.inr rfl
    · exact Or.inl rfl

/-- C16: when every validation of `faseDeAtaque` passes (attacker id in
1..N on a record owned by the player with at least 2 troops, defender id in
1..N, different from the attacker id, on a record not owned by the player),
the resulting map is the original map with exactly one round of
`simularAtaque` (two rolls of the dice) written to the entries at attacker
id - 1 and defender id - 1: these two entries hold the two records of the
round, every other entry is unchanged, the map keeps its length, and the
names of all territories, the two involved included, are unchanged. -/
theorem faseDeAtaque_uma_rodada (mapa : List Territorio) (numTerritorios : Int)
    (corJogador : String) (idAtacante idDefensor : Int) (atacante defensor : Territorio)
    (g : Rng)
    (hia : 1 ≤ idAtacante ∧ idAtacante ≤ numTerritorios)
    (ha : mapa[(idAtacante - 1).toNat]? = some atacante)
    (hac : atacante.corDono = corJogador) (hat : 2 ≤ atacante.tropas)
    (hid : 1 ≤ idDefensor ∧ idDefensor ≤ numTerritorios) (hne : idDefensor ≠ idAtacante)
    (hd : mapa[(idDefensor - 1).toNat]? = some defensor)
    (hdc : defensor.corDono ≠ corJogador) :
    faseDeAtaque mapa numTerritorios corJogador (some idAtacante) (some idDefensor) g =
        ((mapa.set (idAtacante - 1).toNat
              (simularAtaque atacante defensor corJogador g).1).set
            (idDefensor - 1).toNat (simularAtaque atacante defensor corJogador g).2.1,
          (rolarDado (rolarDado g).2).2) ∧
      (faseDeAtaque mapa numTerritorios corJogador (some idAtacante) (some idDefensor)
          g).1[(idAtacante - 1).toNat]? =
        some (simularAtaque atacante defensor corJogador g).1 ∧
      (faseDeAtaque mapa numTerritorios corJogador (some idAtacante) (some idDefensor)
          g).1[(idDefensor - 1).toNat]? =
        some (simularAtaque atacante defensor corJogador g).2.1 ∧
      (∀ k, k ≠ (idAtacante - 1).toNat → k ≠ (idDefensor - 1).toNat →
        (faseDeAtaque mapa numTerritorios corJogador (some idAtacante) (some idDefensor)
          g).1[k]? = mapa[k]?) ∧
      (faseDeAtaque mapa numTerritorios corJogador (some idAtacante) (some idDefensor)
          g).1.length = mapa.length ∧
      (faseDeAtaque mapa numTerritorios corJogador (some idAtacante) (some idDefensor)
          g).1.map Territorio.nome = mapa.map Territorio.nome := by
  have hfase := faseDeAtaque_aceito mapa numTerritorios corJogador idAtacante idDefensor
    atacante defensor g hia ha hac hat hid hne hd hdc
  have hila : (idAtacante - 1).toNat < mapa.length := (List.getElem?_eq_some.mp ha).1
  have hild : (idDefensor - 1).toNat < mapa.length := (List.getElem?_eq_some.mp hd).1
  have hdist : (idAtacante - 1).toNat ≠ (idDefensor - 1).toNat := by
    intro h
    apply hne
    omega
  obtain ⟨hn1, hn2, _⟩ := simularAtaqueDados_nomes (rolarDado g).1
    (rolarDado (rolarDado g).2).1 atacante defensor corJogador
  rw [hfase]
  refine ⟨rfl, ?_, ?_, ?_, ?_, ?_⟩
  · rw [List.getElem?_set_ne (Ne.symm hdist)]
    exact List.getElem?_set_self hila
  · exact List.getElem?_set_self (by rw [List.length_set]; exact hild)
  · intro k hk1 hk2
    rw [List.getElem?_set_ne (Ne.symm hk2), List.getElem?_set_ne (Ne.symm hk1)]
  · simp
  · simp only [List.map_set, simularAtaque_eq_dados, hn1, hn2]
    have e1 : (mapa.map Territorio.nome)[(idAtacante - 1).toNat]? = some atacante.nome := by
      rw [List.getElem?_map, ha]
      rfl
    rw [set_mesmo _ _ _ e1]
    have e2 : (mapa.map Territorio.nome)[(idDefensor - 1).toNat]? = some defensor.nome := by
      rw [List.getElem?_map, hd]
      rfl
    rw [set_mesmo _ _ _ e2]

/-- C16 on the scenario map: territory 1 attacks territory 6 with both dice
at 1, so the attacker loses one troop and nothing else moves. -/
theorem faseDeAtaque_uma_rodada_witness :
    (faseDeAtaque mapaCenario MAX_TERRITORIOS COR_JOGADOR (some 1) (some 6) sorteZero).1 =
      (mapaCenario.set 0 ⟨"Territorio 1", "AZUL", 3⟩).set 5 ⟨"Territorio 6", "VERDE", 2⟩ ∧
    (faseDeAtaque mapaCenario MAX_TERRITORIOS COR_JOGADOR (some 1) (some 6)
        sorteZero).1.map Territorio.nome = mapaCenario.map Territorio.nome :=
  ⟨congrArg Prod.fst
      (faseDeAtaque_uma_rodada mapaCenario MAX_TERRITORIOS COR_JOGADOR 1 6
        ⟨"Territorio 1", "AZUL", 4⟩ ⟨"Territorio 6", "VERDE", 2⟩ sorteZero
        (by decide) rfl rfl (by decide) (by decide) (by decide) rfl (by decide)).1,
    (faseDeAtaque_uma_rodada mapaCenario MAX_TERRITORIOS COR_JOGADOR 1 6
        ⟨"Territorio 1", "AZUL", 4⟩ ⟨"Territorio 6", "VERDE", 2⟩ sorteZero
        (by decide) rfl rfl (by decide) (by decide) (by decide) rfl (by decide)).2.2.2.2.2⟩


/-! ## Attacks and the missions -/

/-- The count of a colour after one record of the map is replaced. -/
theorem contarTerritorios_set (mapa : List Territorio) (i : Nat) (velho novo : Territorio)
    (cor : String) (h : mapa[i]? = some velho) :
    contarTerritorios (mapa.set i novo) cor + (if velho.corDono = cor then 1 else 0) =
      contarTerritorios mapa cor + (if novo.corDono = cor then 1 else 0) := by
  induction mapa generalizing i with
  | nil => simp at h
  | cons x l ih =>
    cases i with
    | zero =>
      simp only [List.getElem?_cons_zero, Option.some.injEq] at h
      subst h
      have e1 : (x :: l).set 0 novo = [novo] ++ l := rfl
      have e2 : x :: l = [x] ++ l := rfl
      rw [e1, contarTerritorios_append, contarTerritorios_singleton]
      conv_rhs => rw [e2, contarTerritorios_append, contarTerritorios_singleton]
      omega
    | succ i =>
      simp only [List.getElem?_cons_succ] at h
      have e1 : (x :: l).set (i + 1) novo = [x] ++ l.set i novo := rfl
      have e2 : x :: l = [x] ++ l := rfl
      rw [e1, contarTerritorios_append]
      conv_rhs => rw [e2, contarTerritorios_append]
      have := ih i h
      omega

/-- C19: for every map of `numTerritorios` records, every input and every
random source (so every pair of dice), `faseDeAtaque` with the player colour
AZUL does not lower the number of territories owned by the player and does
not raise the number owned by the target enemy PRETO; hence for each mission
id, if `verificarVitoria` is true before the attack action it is true after
it. -/
theorem faseDeAtaque_missao_monotona (mapa : List Territorio) (numTerritorios : Int)
    (entradaAtacante entradaDefensor : Option Int) (g : Rng)
    (hn : (mapa.length : Int) = numTerritorios) :
    contarTerritorios mapa COR_JOGADOR ≤
        contarTerritorios (faseDeAtaque mapa numTerritorios COR_JOGADOR entradaAtacante
          entradaDefensor g).1 COR_JOGADOR ∧
      contarTerritorios (faseDeAtaque mapa numTerritorios COR_JOGADOR entradaAtacante
          entradaDefensor g).1 COR_INIMIGO_ALVO ≤ contarTerritorios mapa COR_INIMIGO_ALVO ∧
      ∀ idMissao : Int,
        verificarVitoria mapa numTerritorios idMissao COR_JOGADOR ≠ 0 →
        verificarVitoria (faseDeAtaque mapa numTerritorios COR_JOGADOR entradaAtacante
          entradaDefensor g).1 numTerritorios idMissao COR_JOGADOR ≠ 0 := by
  have hcontagem :
      (((faseDeAtaque mapa numTerritorios COR_JOGADOR entradaAtacante
          entradaDefensor g).1.length : Int) = numTerritorios) ∧
      contarTerritorios mapa COR_JOGADOR ≤
        contarTerritorios (faseDeAtaque mapa numTerritorios COR_JOGADOR entradaAtacante
          entradaDefensor g).1 COR_JOGADOR ∧
      contarTerritorios (faseDeAtaque mapa numTerritorios COR_JOGADOR entradaAtacante
          entradaDefensor g).1 COR_INIMIGO_ALVO ≤ contarTerritorios mapa COR_INIMIGO_ALVO := by
    rcases faseDeAtaque_casos mapa numTerritorios COR_JOGADOR entradaAtacante
        entradaDefensor g hn with h | ⟨ia, idf, a, d, _, _, hia, hid, hne, ha, hd, hac, _, hdc, h⟩
    · rw [h]
      exact ⟨hn, le_refl _, le_refl _⟩
    · rw [h]
      have hdist : (idf - 1).toNat ≠ (ia - 1).toNat := by
        intro hx
        apply hne
        omega
      have hd1 : (mapa.set (ia - 1).toNat (simularAtaque a d COR_JOGADOR g).1)[(idf - 1).toNat]?
          = some d := by
        rw [List.getElem?_set_ne (Ne.symm hdist)]
        exact hd
      obtain ⟨_, _, hdono⟩ := simularAtaqueDados_nomes (rolarDado g).1
        (rolarDado (rolarDado g).2).1 a d COR_JOGADOR
      have hdef := simularAtaqueDados_dono (rolarDado g).1
        (rolarDado (rolarDado g).2).1 a d COR_JOGADOR
      have hpreto : ¬ COR_JOGADOR = COR_INIMIGO_ALVO := by decide
      have a1 := contarTerritorios_set mapa _ a (simularAtaque a d COR_JOGADOR g).1
        COR_JOGADOR ha
      have a2 := contarTerritorios_set mapa _ a (simularAtaque a d COR_JOGADOR g).1
        COR_INIMIGO_ALVO ha
      have d1 := contarTerritorios_set _ _ d (simularAtaque a d COR_JOGADOR g).2.1
        COR_JOGADOR hd1
      have d2 := contarTerritorios_set _ _ d (simularAtaque a d COR_JOGADOR g).2.1
        COR_INIMIGO_ALVO hd1
      simp only [simularAtaque_eq_dados] at a1 a2 d1 d2 ⊢
      simp only [hdono] at a1 a2
      simp only [hdc, if_false] at d1
      refine ⟨by simp only [List.length_set]; exact hn, by omega, ?_⟩
      rcases hdef with hx | hx
      · simp only [hx] at d2
        omega
      · simp only [hx, hpreto, if_false] at d2
        omega
  obtain ⟨hlen, hjog, halvo⟩ := hcontagem
  refine ⟨hjog, halvo, ?_⟩
  intro idMissao
  simp only [verificarVitoria, verificar_laco_total mapa numTerritorios COR_JOGADOR hn,
    verificar_laco_total _ numTerritorios COR_JOGADOR hlen]
  split_ifs <;> simp <;> omega

/-- C19 on the scenario map: the conquest of territory 5 takes the player
from 4 territories to 5 and the target enemy from 1 to 0. -/
theorem faseDeAtaque_missao_monotona_witness :
    ((mapaCenario.length : Int) = MAX_TERRITORIOS) ∧
      contarTerritorios mapaCenario COR_JOGADOR ≤
        contarTerritorios (faseDeAtaque mapaCenario MAX_TERRITORIOS COR_JOGADOR (some 1)
          (some 5) sorteAtacante).1 COR_JOGADOR ∧
      contarTerritorios (faseDeAtaque mapaCenario MAX_TERRITORIOS COR_JOGADOR (some 1)
          (some 5) sorteAtacante).1 COR_INIMIGO_ALVO ≤
        contarTerritorios mapaCenario COR_INIMIGO_ALVO :=
  ⟨by decide,
   (faseDeAtaque_missao_monotona mapaCenario MAX_TERRITORIOS (some 1) (some 5) sorteAtacante
      (by decide)).1,
   (faseDeAtaque_missao_monotona mapaCenario MAX_TERRITORIOS (some 1) (some 5) sorteAtacante
      (by decide)).2.1⟩

/-! ## Troops across the turns -/

/-- An attack action seen entry by entry, on a map of `numTerritorios`
records that all hold at least 1 troop: the map keeps its length, and every
entry keeps its owner or passes to `corJogador`, keeps at least 1 troop and
loses at most 1 troop. -/
theorem faseDeAtaque_por_indice (mapa : List Territorio) (numTerritorios : Int)
    (corJogador : String) (entradaAtacante entradaDefensor : Option Int) (g : Rng)
    (hn : (mapa.length : Int) = numTerritorios) (htropas : ∀ t ∈ mapa, 1 ≤ t.tropas) :
    (faseDeAtaque mapa numTerritorios corJogador entradaAtacante entradaDefensor
        g).1.length = mapa.length ∧
      ∀ (i : Nat) (t1 : Territorio),
        (faseDeAtaque mapa numTerritorios corJogador entradaAtacante entradaDefensor
          g).1[i]? = some t1 →
        ∃ t : Territorio, mapa[i]? = some t ∧ (t1.corDono = t.corDono ∨ t1.corDono = corJogador) ∧
          1 ≤ t1.tropas ∧ t.tropas - 1 ≤ t1.tropas ∧ t1.tropas ≤ t.tropas := by
  rcases faseDeAtaque_casos mapa numTerritorios corJogador entradaAtacante
      entradaDefensor g hn with h | ⟨ia, idf, a, d, _, _, hia, hid, hne, ha, hd, hac, hat, hdc, h⟩
  · rw [h]
    refine ⟨rfl, ?_⟩
    intro i t1 ht1
    have hmem : t1 ∈ mapa := List.mem_iff_getElem?.mpr ⟨i, ht1⟩
    have := htropas t1 hmem
    exact ⟨t1, ht1, Or.inl rfl, this, by omega, le_refl _⟩
  · rw [h]
    refine ⟨by simp only [List.length_set], ?_⟩
    have hdt : 1 ≤ d.tropas := htropas d (List.mem_iff_getElem?.mpr ⟨_, hd⟩)
    obtain ⟨⟨l1, l2, l3⟩, l4, l5, l6⟩ := simularAtaqueDados_limites (rolarDado g).1
      (rolarDado (rolarDado g).2).1 a d corJogador hat hdt
    obtain ⟨_, _, hdono⟩ := simularAtaqueDados_nomes (rolarDado g).1
      (rolarDado (rolarDado g).2).1 a d corJogador
    have hdef := simularAtaqueDados_dono (rolarDado g).1
      (rolarDado (rolarDado g).2).1 a d corJogador
    have hild : (idf - 1).toNat < mapa.length := (List.getElem?_eq_some.mp hd).1
    have hila : (ia - 1).toNat < mapa.length := (List.getElem?_eq_some.mp ha).1
    intro i t1 ht1
    simp only [simularAtaque_eq_dados] at ht1
    by_cases hi1 : (idf - 1).toNat = i
    · subst hi1
      rw [List.getElem?_set_self (by rw [List.length_set]; exact hild)] at ht1
      cases ht1
      exact ⟨d, hd, hdef, l4, l5, l6⟩
    · rw [List.getElem?_set_ne hi1] at ht1
      by_cases hi2 : (ia - 1).toNat = i
      · subst hi2
        rw [List.getElem?_set_self hila] at ht1
        cases ht1
        exact ⟨a, ha, Or.inl hdono, l1, l2, l3⟩
      · rw [List.getElem?_set_ne hi2] at ht1
        have := htropas t1 (List.mem_iff_getElem?.mpr ⟨i, ht1⟩)
        exact ⟨t1, ht1, Or.inl rfl, this, by omega, le_refl _⟩

/-- The map filled by `inicializarTerritorios` is a valid map of the game. -/
theorem inicializarTerritorios_valido (mapa0 : List Territorio) (g0 : Rng)
    (h0 : (mapa0.length : Int) = MAX_TERRITORIOS) :
    mapaValido (inicializarTerritorios mapa0 MAX_TERRITORIOS g0).1 := by
  obtain ⟨hlen, hregra⟩ := inicializarTerritorios_regra mapa0 MAX_TERRITORIOS g0 h0
  refine ⟨by omega, ?_⟩
  intro t ht
  obtain ⟨i, hi⟩ := List.mem_iff_getElem?.mp ht
  obtain ⟨h1, h2, h3⟩ := hregra i t hi
  rcases Nat.lt_trichotomy i 4 with h | h | h
  · obtain ⟨hc, htr⟩ := h1 h
    rw [hc]
    exact ⟨by omega, by decide⟩
  · obtain ⟨hc, htr⟩ := h2 h
    rw [hc]
    exact ⟨by omega, by decide⟩
  · obtain ⟨hc, htr⟩ := h3 h
    refine ⟨by omega, ?_⟩
    rcases hc with hc | hc <;> rw [hc] <;> decide

/-- An attack action of the player keeps a valid map valid. -/
theorem faseDeAtaque_valido (mapa : List Territorio)
    (entradaAtacante entradaDefensor : Option Int) (g : Rng) (hv : mapaValido mapa) :
    mapaValido (faseDeAtaque mapa MAX_TERRITORIOS COR_JOGADOR entradaAtacante
      entradaDefensor g).1 := by
  obtain ⟨hlen, hall⟩ := hv
  obtain ⟨hl, hidx⟩ := faseDeAtaque_por_indice mapa MAX_TERRITORIOS COR_JOGADOR
    entradaAtacante entradaDefensor g hlen (fun t ht => (hall t ht).1)
  refine ⟨by rw [hl]; exact hlen, ?_⟩
  intro t1 ht1
  obtain ⟨i, hi⟩ := List.mem_iff_getElem?.mp ht1
  obtain ⟨t, ht, hcor, htr, _, _⟩ := hidx i t1 hi
  refine ⟨htr, ?_⟩
  rcases hcor with hc | hc
  · rw [hc]
    exact (hall t (List.mem_iff_getElem?.mpr ⟨i, ht⟩)).2
  · rw [hc]
    decide

/-- A turn of the loop keeps a valid map valid. -/
theorem turno_valido (j : Jogo) (e : Entrada) (hv : mapaValido j.mapa) :
    mapaValido (turno j e).mapa := by
  have hfase := faseDeAtaque_valido j.mapa e.entradaAtacante e.entradaDefensor j.g hv
  unfold turno
  simp only
  split_ifs <;> first | exact hfase | exact hv

/-- The loop of `main` keeps a valid map valid, however many turns are
played. -/
theorem lacoPrincipal_valido (entradas : List Entrada) (j : Jogo) (hv : mapaValido j.mapa) :
    mapaValido (lacoPrincipal j entradas).mapa := by
  induction entradas generalizing j with
  | nil => exact hv
  | cons e es ih =>
    unfold lacoPrincipal
    simp only
    split_ifs
    · exact ih _ (turno_valido j e hv)
    · exact turno_valido j e hv

/-- C12: starting from any map produced by `inicializarTerritorios` with 10
territories, after any finite sequence of turns of the loop of `main`
(attacks with any inputs and dice, mission checks, invalid choices) the map
still has its 10 territories and each of them has an owner that is not the
empty string and a troop count of at least 0. -/
theorem lacoPrincipal_dono_tropas (mapa0 : List Territorio) (g0 : Rng) (j : Jogo)
    (entradas : List Entrada)
    (h0 : (mapa0.length : Int) = MAX_TERRITORIOS)
    (hj : j.mapa = (inicializarTerritorios mapa0 MAX_TERRITORIOS g0).1) :
    ((lacoPrincipal j entradas).mapa.length : Int) = MAX_TERRITORIOS ∧
      ∀ t ∈ (lacoPrincipal j entradas).mapa, t.corDono ≠ "" ∧ 0 ≤ t.tropas := by
  have hv : mapaValido j.mapa := by
    rw [hj]
    exact inicializarTerritorios_valido mapa0 g0 h0
  obtain ⟨hlen, hall⟩ := lacoPrincipal_valido entradas j hv
  refine ⟨hlen, ?_⟩
  intro t ht
  obtain ⟨h1, h2⟩ := hall t ht
  exact ⟨h2, by omega⟩

/-- C12 on the game that `main` sets up from a random source of zeros,
after an attack from territory 1 on territory 5 and a mission check. -/
theorem lacoPrincipal_dono_tropas_witness :
    ((alocarMapa MAX_TERRITORIOS).length : Int) = MAX_TERRITORIOS ∧
      ∀ t ∈ (lacoPrincipal (configurar sorteZero)
          [⟨some 1, some 1, some 5⟩, ⟨some 2, none, none⟩]).mapa,
        t.corDono ≠ "" ∧ 0 ≤ t.tropas :=
  ⟨by decide,
   (lacoPrincipal_dono_tropas (alocarMapa MAX_TERRITORIOS) sorteZero (configurar sorteZero)
      [⟨some 1, some 1, some 5⟩, ⟨some 2, none, none⟩] (by decide) rfl).2⟩

/-- C18: in every state reached from an initialised map of 10 territories
through the turn loop, every territory has at least 1 troop; and an attack
action of `faseDeAtaque` on a map of `numTerritorios` records that all hold
at least 1 troop leaves every record with at least 1 troop and takes at most
1 troop from any record, the attacker's included, so the attacker's origin
is never left with 0 troops. -/
theorem lacoPrincipal_tropas_positivas (mapa0 : List Territorio) (g0 : Rng) (j : Jogo)
    (entradas : List Entrada)
    (h0 : (mapa0.length : Int) = MAX_TERRITORIOS)
    (hj : j.mapa = (inicializarTerritorios mapa0 MAX_TERRITORIOS g0).1) :
    (∀ t ∈ (lacoPrincipal j entradas).mapa, 1 ≤ t.tropas) ∧
      ∀ (mapa : List Territorio) (numTerritorios : Int) (corJogador : String)
        (entradaAtacante entradaDefensor : Option Int) (g : Rng),
        (mapa.length : Int) = numTerritorios → (∀ t ∈ mapa, 1 ≤ t.tropas) →
        (∀ t ∈ (faseDeAtaque mapa numTerritorios corJogador entradaAtacante
            entradaDefensor g).1, 1 ≤ t.tropas) ∧
          ∀ (i : Nat) (t t1 : Territorio), mapa[i]? = some t →
            (faseDeAtaque mapa numTerritorios corJogador entradaAtacante
              entradaDefensor g).1[i]? = some t1 →
            t.tropas - 1 ≤ t1.tropas ∧ 1 ≤ t1.tropas := by
  have hv : mapaValido j.mapa := by
    rw [hj]
    exact inicializarTerritorios_valido mapa0 g0 h0
  obtain ⟨_, hall⟩ := lacoPrincipal_valido entradas j hv
  refine ⟨fun t ht => (hall t ht).1, ?_⟩
  intro mapa numTerritorios corJogador entradaAtacante entradaDefensor g hn htropas
  obtain ⟨_, hidx⟩ := faseDeAtaque_por_indice mapa numTerritorios corJogador
    entradaAtacante entradaDefensor g hn htropas
  constructor
  · intro t1 ht1
    obtain ⟨i, hi⟩ := List.mem_iff_getElem?.mp ht1
    obtain ⟨_, _, _, htr, _, _⟩ := hidx i t1 hi
    exact htr
  · intro i t t1 ht ht1
    obtain ⟨t', ht', _, htr, hmin, _⟩ := hidx i t1 ht1
    rw [ht] at ht'
    cases ht'
    exact ⟨hmin, htr⟩

/-- C18 on the game that `main` sets up from the random source starting
with a 5, after two attacks from territory 1 on territory 5. -/
theorem lacoPrincipal_tropas_positivas_witness :
    ((alocarMapa MAX_TERRITORIOS).length : Int) = MAX_TERRITORIOS ∧
      ∀ t ∈ (lacoPrincipal (configurar sorteAtacante)
          [⟨some 1, some 1, some 5⟩, ⟨some 1, some 1, some 5⟩]).mapa,
        1 ≤ t.tropas :=
  ⟨by decide,
   (lacoPrincipal_tropas_positivas (alocarMapa MAX_TERRITORIOS) sorteAtacante
      (configurar sorteAtacante) [⟨some 1, some 1, some 5⟩, ⟨some 1, some 1, some 5⟩]
      (by decide) rfl).1⟩


/-! ## Mission checks leave the game as it is -/

/-- The loop body of `verificarVitoria` looks at the owners only. -/
theorem verificarPasso_donos (mapa mapa1 : List Territorio) (corJogador : String)
    (h : mapa.map Territorio.corDono = mapa1.map Territorio.corDono) :
    verificarPasso mapa corJogador = verificarPasso mapa1 corJogador := by
  funext acc i
  have e : (mapa.getD i default).corDono = (mapa1.getD i default).corDono := by
    have e1 := List.getD_map (l := mapa) (d := default) (n := i) Territorio.corDono
    have e2 := List.getD_map (l := mapa1) (d := default) (n := i) Territorio.corDono
    rw [← e1, ← e2, h]
  simp only [verificarPasso, e]

/-- C13: `verificarVitoria` reads the map and writes nothing.  A turn that
checks the mission leaves the map and the random source as they were and
stores the value of `verificarVitoria` on the current map; a second call on
the map the turn leaves behind gives that same value; and for every two maps
with the same owners, every length argument, mission id and player colour,
the two calls return the same result, so the result is a function of the
arguments alone. -/
theorem verificarVitoria_somente_leitura (j : Jogo) (e : Entrada)
    (he : e.escolha = some 2) :
    (turno j e).mapa = j.mapa ∧ (turno j e).g = j.g ∧
      (turno j e).jogoVencido =
        verificarVitoria j.mapa MAX_TERRITORIOS j.idMissaoJogador COR_JOGADOR ∧
      verificarVitoria (turno j e).mapa MAX_TERRITORIOS (turno j e).idMissaoJogador
        COR_JOGADOR = (turno j e).jogoVencido ∧
      ∀ (mapa mapa1 : List Territorio) (numTerritorios idMissao : Int)
        (corJogador : String),
        mapa.map Territorio.corDono = mapa1.map Territorio.corDono →
        verificarVitoria mapa numTerritorios idMissao corJogador =
          verificarVitoria mapa1 numTerritorios idMissao corJogador := by
  obtain ⟨esc, ea, ed⟩ := e
  simp only at he
  subst he
  have h21 : ¬ (2 : Int) = 1 := by decide
  have hturno : turno j ⟨some 2, ea, ed⟩ =
      if verificarVitoria j.mapa MAX_TERRITORIOS j.idMissaoJogador COR_JOGADOR ≠ 0 then
        { j with
          jogoVencido :=
            verificarVitoria j.mapa MAX_TERRITORIOS j.idMissaoJogador COR_JOGADOR,
          escolha := 0 }
      else
        { j with
          jogoVencido :=
            verificarVitoria j.mapa MAX_TERRITORIOS j.idMissaoJogador COR_JOGADOR,
          escolha := 2 } := by
    simp only [turno, h21, if_false, if_true]
    split_ifs with h1 h2 h3
    · rfl
    · exact absurd h1.1 h2
    · exact absurd ⟨h3, by decide⟩ h1
    · rfl
  rw [hturno]
  refine ⟨?_, ?_, ?_, ?_, ?_⟩
  · split_ifs <;> rfl
  · split_ifs <;> rfl
  · split_ifs <;> rfl
  · split_ifs <;> rfl
  · intro mapa mapa1 numTerritorios idMissao corJogador h
    simp only [verificarVitoria, verificarPasso_donos mapa mapa1 corJogador h]

/-- C13 on the scenario game: a mission check changes neither the map nor
the random source. -/
theorem verificarVitoria_somente_leitura_witness :
    (turno jogoCenario ⟨some 2, none, none⟩).mapa = jogoCenario.mapa ∧
      (turno jogoCenario ⟨some 2, none, none⟩).g = jogoCenario.g :=
  ⟨(verificarVitoria_somente_leitura jogoCenario ⟨some 2, none, none⟩ rfl).1,
   (verificarVitoria_somente_leitura jogoCenario ⟨some 2, none, none⟩ rfl).2.1⟩

/-- C11 on the scenario game, whose mission is to destroy the target enemy:
the attack of the turn takes the enemy's last territory, so the mission is
fulfilled on the map after the attack, and still the turn neither ends the
game nor sets `jogoVencido`. -/
theorem turno_fim_de_jogo_witness :
    jogoCenario.jogoVencido = 0 ∧
      verificarVitoria (turno jogoCenario ⟨some 1, some 1, some 5⟩).mapa MAX_TERRITORIOS
        jogoCenario.idMissaoJogador COR_JOGADOR = 1 ∧
      (turno jogoCenario ⟨some 1, some 1, some 5⟩).escolha ≠ 0 ∧
      (turno jogoCenario ⟨some 1, some 1, some 5⟩).jogoVencido = 0 :=
  ⟨rfl, by decide, (turno_fim_de_jogo jogoCenario ⟨some 1, some 1, some 5⟩ rfl).2.1 rfl⟩

/-! ## No mission is fulfilled at the start -/

/-- C20: for every stream of random draws, the map that
`inicializarTerritorios` produces with 10 territories has exactly 4
territories owned by the player colour and exactly 1 owned by the target
enemy colour, so `verificarVitoria` on that initial map returns 0 (false) for
each of the mission ids 1, 2 and 3. -/
theorem inicializarTerritorios_sem_vitoria (mapa0 : List Territorio) (g0 : Rng)
    (h0 : (mapa0.length : Int) = MAX_TERRITORIOS) :
    contarTerritorios (inicializarTerritorios mapa0 MAX_TERRITORIOS g0).1 COR_JOGADOR = 4 ∧
      contarTerritorios (inicializarTerritorios mapa0 MAX_TERRITORIOS g0).1
        COR_INIMIGO_ALVO = 1 ∧
      verificarVitoria (inicializarTerritorios mapa0 MAX_TERRITORIOS g0).1 MAX_TERRITORIOS 1
        COR_JOGADOR = 0 ∧
      verificarVitoria (inicializarTerritorios mapa0 MAX_TERRITORIOS g0).1 MAX_TERRITORIOS 2
        COR_JOGADOR = 0 ∧
      verificarVitoria (inicializarTerritorios mapa0 MAX_TERRITORIOS g0).1 MAX_TERRITORIOS 3
        COR_JOGADOR = 0 := by
  obtain ⟨hlen, hregra⟩ := inicializarTerritorios_regra mapa0 MAX_TERRITORIOS g0 h0
  have hlenI : (((inicializarTerritorios mapa0 MAX_TERRITORIOS g0).1.length : Nat) : Int) =
      MAX_TERRITORIOS := by omega
  have hcontagem :
      contarTerritorios (inicializarTerritorios mapa0 MAX_TERRITORIOS g0).1 COR_JOGADOR = 4 ∧
      contarTerritorios (inicializarTerritorios mapa0 MAX_TERRITORIOS g0).1
        COR_INIMIGO_ALVO = 1 := by
    have hlen10 : (inicializarTerritorios mapa0 MAX_TERRITORIOS g0).1.length = 10 := by
      have hmax : MAX_TERRITORIOS = 10 := rfl
      omega
    generalize (inicializarTerritorios mapa0 MAX_TERRITORIOS g0).1 = r at hregra hlen10
    rcases r with _ | ⟨t0, _ | ⟨t1, _ | ⟨t2, _ | ⟨t3, _ | ⟨t4, _ | ⟨t5, _ | ⟨t6, _ | ⟨t7,
      _ | ⟨t8, _ | ⟨t9, _ | ⟨t10, r⟩⟩⟩⟩⟩⟩⟩⟩⟩⟩⟩ <;>
      simp only [List.length_cons, List.length_nil] at hlen10 <;> try omega
    have hjp : ¬ COR_JOGADOR = COR_INIMIGO_ALVO := by decide
    have hpj : ¬ COR_INIMIGO_ALVO = COR_JOGADOR := by decide
    have c0 := ((hregra 0 t0 rfl).1 (by decide)).1
    have c1 := ((hregra 1 t1 rfl).1 (by decide)).1
    have c2 := ((hregra 2 t2 rfl).1 (by decide)).1
    have c3 := ((hregra 3 t3 rfl).1 (by decide)).1
    have c4 := ((hregra 4 t4 rfl).2.1 rfl).1
    have houtro : ∀ t : Territorio, (t.corDono = "AMARELO" ∨ t.corDono = "VERDE") →
        ¬ t.corDono = COR_JOGADOR ∧ ¬ t.corDono = COR_INIMIGO_ALVO := by
      intro t ht
      rcases ht with ht | ht <;> rw [ht] <;> exact ⟨by decide, by decide⟩
    obtain ⟨j5, p5⟩ := houtro t5 ((hregra 5 t5 rfl).2.2 (by decide)).1
    obtain ⟨j6, p6⟩ := houtro t6 ((hregra 6 t6 rfl).2.2 (by decide)).1
    obtain ⟨j7, p7⟩ := houtro t7 ((hregra 7 t7 rfl).2.2 (by decide)).1
    obtain ⟨j8, p8⟩ := houtro t8 ((hregra 8 t8 rfl).2.2 (by decide)).1
    obtain ⟨j9, p9⟩ := houtro t9 ((hregra 9 t9 rfl).2.2 (by decide)).1
    constructor
    · simp [contarTerritorios, List.countP_cons, c0, c1, c2, c3, c4, hpj, j5, j6, j7, j8, j9]
    · simp [contarTerritorios, List.countP_cons, c0, c1, c2, c3, c4, hjp, p5, p6, p7, p8, p9]
  obtain ⟨hj, hp⟩ := hcontagem
  refine ⟨hj, hp, ?_, ?_, ?_⟩
  · simp only [verificarVitoria, verificar_laco_total _ MAX_TERRITORIOS COR_JOGADOR hlenI,
      hj]
    simp
  · simp only [verificarVitoria, verificar_laco_total _ MAX_TERRITORIOS COR_JOGADOR hlenI,
      hp]
    simp
  · simp only [verificarVitoria, verificar_laco_total _ MAX_TERRITORIOS COR_JOGADOR hlenI,
      hj]
    simp

/-- C20 on the map of the game, filled from a random source of zeros. -/
theorem inicializarTerritorios_sem_vitoria_witness :
    ((alocarMapa MAX_TERRITORIOS).length : Int) = MAX_TERRITORIOS ∧
      verificarVitoria (inicializarTerritorios (alocarMapa MAX_TERRITORIOS) MAX_TERRITORIOS
        sorteZero).1 MAX_TERRITORIOS 2 COR_JOGADOR = 0 :=
  ⟨by decide,
   (inicializarTerritorios_sem_vitoria (alocarMapa MAX_TERRITORIOS) sorteZero
      (by decide)).2.2.2.1⟩
end War
